import Mathlib

/-!
# Shallow embedding of `src/main.js` (auto-typewriter)

The source is a single browser script defining a class `AutoTypewriter`
with run state (`isRunning`, `isPaused`), a configuration
(`charsPerTenMins`, `msToWait`, host-element references), statistics
(`charactersTyped`, `startTime`, `lastTypedTime`), and a periodic timer
(`intervalId`) whose callback calls `typeNextCharacter`.

Modelling choices:
* JS timestamps (`Date.now()`) are `Nat` milliseconds.
* The float `msToWait = 600000 / charsPerTenMins` is modelled over `ℚ`:
  the code performs exactly one division and stores the result.
* DOM references are modelled by presence flags; the target element's
  `innerHTML` read on each tick is the environment's `targetChar`
  (`none` models a read that throws, e.g. the element being gone —
  the `try`/`catch` in `typeNextCharacter` swallows it).
* The timer: `intervalId` is modelled by the flag `intervalActive`.
  Per the HTML timer semantics, `clearInterval` guarantees the
  callback of a cleared interval is not invoked afterwards, so
  `fireTick` runs the callback only when the interval is active.
* `prompt` + `parseInt` results are modelled as `Option Int`
  (`none` = non-numeric input, i.e. `parseInt` returned `NaN`).
-/

/-- Statistics block (`this.stats` in the constructor). -/
structure Stats where
  charactersTyped : Nat
  startTime : Option Nat
  lastTypedTime : Option Nat
deriving Repr, DecidableEq

/-- Configuration block (`this.config`). `targetElementPresent` and
`startBoxPresent` model whether the DOM lookups in
`setupConfiguration` found their elements. -/
structure Config where
  charsPerTenMins : Int
  msToWait : ℚ
  targetElementPresent : Bool
  startBoxPresent : Bool
deriving Repr, DecidableEq

/-- The controller state: the fields of `AutoTypewriter` that the
claims are about. `intervalActive` models `intervalId !== null`,
`observerActive` models `observer !== null`. -/
structure AutoTypewriter where
  isRunning : Bool
  isPaused : Bool
  intervalActive : Bool
  observerActive : Bool
  config : Config
  stats : Stats
deriving Repr, DecidableEq

/-- The constructor's initial values. -/
def AutoTypewriter.initial : AutoTypewriter :=
  { isRunning := false
  , isPaused := false
  , intervalActive := false
  , observerActive := false
  , config := { charsPerTenMins := 0, msToWait := 0
              , targetElementPresent := false, startBoxPresent := false }
  , stats := { charactersTyped := 0, startTime := none, lastTypedTime := none } }

/-- The host page as seen by one tick: the target element's `innerHTML`
(`none` if reading it throws), whether `document.activeElement` is
non-null, and the current clock value. -/
structure HostEnv where
  targetChar : Option String
  activeElementPresent : Bool
  now : Nat
deriving Repr, DecidableEq

/-- The synthetic `KeyboardEvent` built in `typeNextCharacter`. -/
structure KeyboardEvent where
  key : String
  keyCode : Nat
  altKey : Bool
  ctrlKey : Bool
  shiftKey : Bool
  metaKey : Bool
  bubbles : Bool
  cancelable : Bool
deriving Repr, DecidableEq

/-- The event literal from `typeNextCharacter`:
`key: keyToPress, keyCode: keyToPress === ' ' ? 32 : keyToPress.charCodeAt(0)`,
all modifiers false, `bubbles: true, cancelable: true`.
`charCodeAt(0)` is the code of the first character. -/
def mkKeypressEvent (keyToPress : String) : KeyboardEvent :=
  { key := keyToPress
  , keyCode := if keyToPress = " " then 32 else (keyToPress.get 0).toNat
  , altKey := false
  , ctrlKey := false
  , shiftKey := false
  , metaKey := false
  , bubbles := true
  , cancelable := true }

/-- The validity condition of the `do { ... } while` loop in
`setupConfiguration`: the loop exits when
`!(isNaN(n) || n <= 0 || n > 10000)`. -/
def validRate (n : Int) : Bool :=
  0 < n && n ≤ 10000

/-- The `do { charsPerTenMins = parseInt(prompt(...)) } while (...)` loop:
consumes prompt results until one is a valid rate; `none` in the list is
a non-numeric prompt answer (`NaN`). Returns `none` when the supplied
answers are exhausted without a valid rate (the real loop would keep
re-prompting). -/
def promptLoop : List (Option Int) → Option Int
  | [] => none
  | i :: rest =>
    match i with
    | some n => if validRate n then some n else promptLoop rest
    | none => promptLoop rest

/-- `setupConfiguration`, after the DOM lookups: stores the accepted
rate and derives `msToWait = 600000 / charsPerTenMins`. Returns `none`
while no valid rate has been supplied (the loop is still re-prompting). -/
def configure (s : AutoTypewriter) (inputs : List (Option Int)) :
    Option AutoTypewriter :=
  (promptLoop inputs).map fun n =>
    { s with config :=
        { s.config with
            charsPerTenMins := n
          , msToWait := 600000 / (n : ℚ) } }

/-- `typeNextCharacter`: reads `targetElement.innerHTML` (a throw is
caught silently: result `(s, none)`); an empty string is falsy, so
`if (!keyToPress) return`; otherwise builds the keypress event and, if
`document.activeElement` is non-null, dispatches it, increments
`charactersTyped` and records `lastTypedTime`. The second component is
the event dispatched against the focused element, if any. -/
def typeNextCharacter (s : AutoTypewriter) (env : HostEnv) :
    AutoTypewriter × Option KeyboardEvent :=
  match env.targetChar with
  | none => (s, none)
  | some keyToPress =>
    if keyToPress = "" then (s, none)
    else
      let event := mkKeypressEvent keyToPress
      if env.activeElementPresent then
        ({ s with stats :=
            { s.stats with
                charactersTyped := s.stats.charactersTyped + 1
              , lastTypedTime := some env.now } }, some event)
      else (s, none)

/-- The callback passed to `setInterval` in `startTyping`:
`if (!this.isPaused) this.typeNextCharacter()`. -/
def tickCallback (s : AutoTypewriter) (env : HostEnv) :
    AutoTypewriter × Option KeyboardEvent :=
  if s.isPaused then (s, none) else typeNextCharacter s env

/-- One potential firing of the typing timer. Per the HTML timer
semantics a cleared interval's callback is not invoked, so the callback
body runs only while `intervalActive` holds. -/
def fireTick (s : AutoTypewriter) (env : HostEnv) :
    AutoTypewriter × Option KeyboardEvent :=
  if s.intervalActive then tickCallback s env else (s, none)

/-- Iterated timer firings (events discarded). -/
def fireTicks (s : AutoTypewriter) : List HostEnv → AutoTypewriter
  | [] => s
  | env :: rest => fireTicks (fireTick s env).1 rest

/-- `startTyping`: `if (this.isRunning) return;` else set
`isRunning = true`, `isPaused = false`, `startTime = Date.now()`,
`charactersTyped = 0`, and schedule the interval. -/
def startTyping (s : AutoTypewriter) (now : Nat) : AutoTypewriter :=
  if s.isRunning then s
  else
    { s with
        isRunning := true
      , isPaused := false
      , intervalActive := true
      , stats := { s.stats with startTime := some now, charactersTyped := 0 } }

/-- `togglePause`: `if (!this.isRunning) return;` else flip `isPaused`
(the rest of the method only updates the button label). -/
def togglePause (s : AutoTypewriter) : AutoTypewriter :=
  if s.isRunning then { s with isPaused := !s.isPaused } else s

/-- `stop`: clear the interval and the observer, set
`isRunning = false`, `isPaused = false`. Stats and config untouched. -/
def stop (s : AutoTypewriter) : AutoTypewriter :=
  { s with
      intervalActive := false
    , observerActive := false
    , isRunning := false
    , isPaused := false }

/-- The snapshot returned by `getStatus`. -/
structure Status where
  isRunning : Bool
  charsPerTenMins : Int
  msToWait : ℚ
  targetElement : Bool
  charactersTyped : Nat
  timeRunning : Nat
deriving Repr, DecidableEq

/-- `getStatus`: a pure read;
`timeRunning = this.stats.startTime ? Date.now() - this.stats.startTime : 0`
(no check of `isRunning`). -/
def getStatus (s : AutoTypewriter) (now : Nat) : Status :=
  { isRunning := s.isRunning
  , charsPerTenMins := s.config.charsPerTenMins
  , msToWait := s.config.msToWait
  , targetElement := s.config.targetElementPresent
  , charactersTyped := s.stats.charactersTyped
  , timeRunning :=
      match s.stats.startTime with
      | some t => now - t
      | none => 0 }

/-- A tick environment in which a tick succeeds: a non-empty target
character is readable and some element holds focus. -/
def goodEnv (env : HostEnv) : Prop :=
  (∃ c, env.targetChar = some c ∧ c ≠ "") ∧ env.activeElementPresent = true

/-! ## Helper lemmas -/

/-- A rate returned by the prompt loop passed the loop's exit test. -/
theorem promptLoop_valid :
    ∀ (inputs : List (Option Int)) (n : Int),
      promptLoop inputs = some n → validRate n = true
  | [], _, h => by simp [promptLoop] at h
  | i :: rest, n, h => by
    cases i with
    | none => exact promptLoop_valid rest n h
    | some m =>
      by_cases hv : validRate m
      · simp only [promptLoop, hv, if_pos, Option.some.injEq] at h
        exact h ▸ hv
      · simp only [promptLoop, hv, if_neg, Bool.false_eq_true] at h
        exact promptLoop_valid rest n h

/-- `typeNextCharacter` only touches `stats`. -/
theorem typeNextCharacter_config (s : AutoTypewriter) (env : HostEnv) :
    ((typeNextCharacter s env).1).config = s.config := by
  unfold typeNextCharacter
  split
  · rfl
  · split
    · rfl
    · cases env.activeElementPresent <;> rfl

/-- A firing tick never changes the configuration. -/
theorem fireTick_config (s : AutoTypewriter) (env : HostEnv) :
    ((fireTick s env).1).config = s.config := by
  unfold fireTick tickCallback
  split
  · split
    · rfl
    · exact typeNextCharacter_config s env
  · rfl

/-- A tick fired after the interval has been cleared does nothing. -/
theorem fireTick_not_active (s : AutoTypewriter) (env : HostEnv)
    (h : s.intervalActive = false) : fireTick s env = (s, none) := by
  unfold fireTick
  simp [h]

/-- A successful firing tick: the interval is live, the session is not
paused, and the host supplies a character and a focused element; the
tick increments `charactersTyped` and stamps `lastTypedTime`. -/
theorem fireTick_success (s : AutoTypewriter) (env : HostEnv) (c : String)
    (ha : s.intervalActive = true) (hp : s.isPaused = false)
    (hc : env.targetChar = some c) (hne : c ≠ "")
    (hf : env.activeElementPresent = true) :
    fireTick s env =
      ({ s with stats :=
          { s.stats with
              charactersTyped := s.stats.charactersTyped + 1
            , lastTypedTime := some env.now } }, some (mkKeypressEvent c)) := by
  unfold fireTick tickCallback typeNextCharacter
  simp [ha, hp, hc, hne, hf]

/-- Iterating successful ticks adds their number to the character
count and leaves the run flags alone. -/
theorem fireTicks_success :
    ∀ (envs : List HostEnv) (t : AutoTypewriter),
      t.intervalActive = true → t.isPaused = false →
      (∀ e ∈ envs, goodEnv e) →
      (fireTicks t envs).stats.charactersTyped
          = t.stats.charactersTyped + envs.length ∧
      (fireTicks t envs).isRunning = t.isRunning
  | [], t, _, _, _ => by simp [fireTicks]
  | env :: rest, t, ha, hp, hg => by
    obtain ⟨⟨c, hc, hne⟩, hf⟩ := hg env (List.mem_cons_self env rest)
    have hstep := fireTick_success t env c ha hp hc hne hf
    have hrest := fireTicks_success rest (fireTick t env).1
      (by rw [hstep]; exact ha) (by rw [hstep]; exact hp)
      (fun e he => hg e (List.mem_cons_of_mem env he))
    have hchars : ((fireTick t env).1).stats.charactersTyped
        = t.stats.charactersTyped + 1 := by rw [hstep]
    have hrun : ((fireTick t env).1).isRunning = t.isRunning := by rw [hstep]
    have hrw : fireTicks t (env :: rest) = fireTicks (fireTick t env).1 rest := rfl
    constructor
    · rw [hrw, hrest.1, hchars, List.length_cons]
      omega
    · rw [hrw]
      exact hrest.2.trans hrun

/-! ## Claim theorems -/

/-- C1: for every rate accepted by the configuration loop, the stored
rate lies in `[1, 10000]` and the derived tick interval equals
`600000 / rate` exactly; and no operation of the controller
(`startTyping`, `stop`, `togglePause`, a firing tick) ever changes the
configuration, so the relation keeps holding afterwards. -/
theorem tickInterval_eq_div (s s' t : AutoTypewriter)
    (inputs : List (Option Int)) (now : Nat) (env : HostEnv)
    (h : configure s inputs = some s') :
    (1 ≤ s'.config.charsPerTenMins ∧ s'.config.charsPerTenMins ≤ 10000 ∧
      s'.config.msToWait = 600000 / (s'.config.charsPerTenMins : ℚ)) ∧
    ((startTyping t now).config = t.config ∧ (stop t).config = t.config ∧
      (togglePause t).config = t.config ∧
      ((fireTick t env).1).config = t.config) := by
  constructor
  · rcases hpl : promptLoop inputs with _ | n
    · unfold configure at h
      rw [hpl] at h
      cases h
    · unfold configure at h
      rw [hpl] at h
      have hn := promptLoop_valid inputs n hpl
      have hv : 0 < n ∧ n ≤ 10000 := by simpa [validRate] using hn
      injection h with h
      subst h
      dsimp only
      exact ⟨by omega, by omega, rfl⟩
  · refine ⟨?_, rfl, ?_, fireTick_config t env⟩
    · unfold startTyping
      split <;> rfl
    · unfold togglePause
      split <;> rfl

/-- The state produced by configuring the fresh controller with 600. -/
def sampleConfigured : AutoTypewriter :=
  { AutoTypewriter.initial with config :=
      { AutoTypewriter.initial.config with
          charsPerTenMins := 600
        , msToWait := 600000 / ((600 : Int) : ℚ) } }

/-- Witness for C1 at the concrete run `configure` with input 600. -/
theorem tickInterval_eq_div_witness :
    (1 ≤ sampleConfigured.config.charsPerTenMins ∧
      sampleConfigured.config.charsPerTenMins ≤ 10000 ∧
      sampleConfigured.config.msToWait
        = 600000 / ((sampleConfigured.config.charsPerTenMins : Int) : ℚ)) ∧
    ((startTyping AutoTypewriter.initial 5).config
        = AutoTypewriter.initial.config ∧
      (stop AutoTypewriter.initial).config = AutoTypewriter.initial.config ∧
      (togglePause AutoTypewriter.initial).config
        = AutoTypewriter.initial.config ∧
      ((fireTick AutoTypewriter.initial ⟨some "a", true, 7⟩).1).config
        = AutoTypewriter.initial.config) :=
  tickInterval_eq_div AutoTypewriter.initial sampleConfigured
    AutoTypewriter.initial [some 600] 5 ⟨some "a", true, 7⟩ rfl

/-- C2: the configuration loop skips every non-numeric answer and every
rate outside `[1, 10000]` (it keeps consuming further answers, i.e.
re-prompts), accepts a rate in `[1, 10000]` as soon as it is supplied,
and `configure` stores the accepted rate and derives the tick interval
from it. -/
theorem configure_validation (s : AutoTypewriter) (r : Int)
    (bad : Option Int) (rest : List (Option Int))
    (hbad : ∀ n, bad = some n → ¬(1 ≤ n ∧ n ≤ 10000))
    (hr1 : 1 ≤ r) (hr2 : r ≤ 10000) :
    promptLoop (bad :: rest) = promptLoop rest ∧
    promptLoop (some r :: rest) = some r ∧
    configure s (some r :: rest) = some
      { s with config :=
          { s.config with
              charsPerTenMins := r
            , msToWait := 600000 / (r : ℚ) } } := by
  have hvr : validRate r = true := by
    simp only [validRate, Bool.and_eq_true, decide_eq_true_eq]
    omega
  have hloop : promptLoop (some r :: rest) = some r := by
    simp [promptLoop, hvr]
  refine ⟨?_, hloop, ?_⟩
  · cases bad with
    | none => rfl
    | some n =>
      have hn := hbad n rfl
      have hnv : validRate n = false := by
        simp only [validRate, Bool.and_eq_false_iff]
        simp only [decide_eq_false_iff_not]
        omega
      simp [promptLoop, hnv]
  · unfold configure
    rw [hloop]
    rfl

/-- Witness for C2: 20000 is rejected (the prompt repeats), 10000 is
accepted and stored with its derived interval. -/
theorem configure_validation_witness :
    promptLoop (some 20000 :: [some 10000]) = promptLoop [some 10000] ∧
    promptLoop (some 10000 :: [some 10000]) = some 10000 ∧
    configure AutoTypewriter.initial (some 10000 :: [some 10000]) = some
      { AutoTypewriter.initial with config :=
          { AutoTypewriter.initial.config with
              charsPerTenMins := 10000
            , msToWait := 600000 / ((10000 : Int) : ℚ) } } :=
  configure_validation AutoTypewriter.initial 10000 (some 20000)
    [some 10000]
    (by intro n h; injection h with h; subst h; decide)
    (by decide) (by decide)

/-- C3: `stop()` clears the typing interval; per the timer semantics
the callback of a cleared interval no longer runs, so any sequence of
tick firings after `stop` leaves the state — in particular
`charactersTyped` — unchanged. -/
theorem stop_cancels_ticks (s : AutoTypewriter) (envs : List HostEnv) :
    fireTicks (stop s) envs = stop s ∧
    (fireTicks (stop s) envs).stats.charactersTyped
      = s.stats.charactersTyped := by
  have key : ∀ (l : List HostEnv), fireTicks (stop s) l = stop s := by
    intro l
    induction l with
    | nil => rfl
    | cons e t ih =>
      have hstep : fireTick (stop s) e = (stop s, none) :=
        fireTick_not_active (stop s) e rfl
      calc fireTicks (stop s) (e :: t)
          = fireTicks (fireTick (stop s) e).1 t := rfl
        _ = fireTicks (stop s) t := by rw [hstep]
        _ = stop s := ih
  exact ⟨key envs, by rw [key envs]; rfl⟩

/-- C4: `startTyping` is idempotent — calling it twice equals calling
it once; it is a no-op whenever `isRunning` is already true, and
otherwise it sets `isRunning := true`, `isPaused := false`, resets the
counters (`charactersTyped := 0`, `startTime := now`) and schedules
the periodic tick. -/
theorem start_idempotent (s : AutoTypewriter) (n1 n2 : Nat) :
    startTyping (startTyping s n1) n2 = startTyping s n1 ∧
    (s.isRunning = true → startTyping s n1 = s) ∧
    (s.isRunning = false →
      startTyping s n1 =
        { s with
            isRunning := true
          , isPaused := false
          , intervalActive := true
          , stats := { s.stats with
              startTime := some n1, charactersTyped := 0 } }) := by
  refine ⟨?_, ?_, ?_⟩
  · by_cases h : s.isRunning
    · simp [startTyping, h]
    · simp [startTyping, h]
  · intro h
    simp [startTyping, h]
  · intro h
    simp [startTyping, h]

/-- Witness for C4 at the fresh controller state. -/
theorem start_idempotent_witness :
    startTyping (startTyping AutoTypewriter.initial 3) 4
        = startTyping AutoTypewriter.initial 3 ∧
    (AutoTypewriter.initial.isRunning = true →
      startTyping AutoTypewriter.initial 3 = AutoTypewriter.initial) ∧
    (AutoTypewriter.initial.isRunning = false →
      startTyping AutoTypewriter.initial 3 =
        { AutoTypewriter.initial with
            isRunning := true
          , isPaused := false
          , intervalActive := true
          , stats := { AutoTypewriter.initial.stats with
              startTime := some 3, charactersTyped := 0 } }) :=
  start_idempotent AutoTypewriter.initial 3 4

/-- C5: starting from Idle and then firing N successful ticks (each
finding a non-empty target character and a focused element, no
transient failures) yields `charactersTyped = N` with the session
still running; `getStatus` reports exactly these values. -/
theorem ticks_count (s : AutoTypewriter) (now after : Nat)
    (envs : List HostEnv)
    (hidle : s.isRunning = false)
    (hg : ∀ e ∈ envs, goodEnv e) :
    (fireTicks (startTyping s now) envs).stats.charactersTyped
        = envs.length ∧
    (fireTicks (startTyping s now) envs).isRunning = true ∧
    (getStatus (fireTicks (startTyping s now) envs) after).charactersTyped
        = envs.length ∧
    (getStatus (fireTicks (startTyping s now) envs) after).isRunning
        = true := by
  have hs : startTyping s now =
      { s with
          isRunning := true
        , isPaused := false
        , intervalActive := true
        , stats := { s.stats with
            startTime := some now, charactersTyped := 0 } } := by
    simp [startTyping, hidle]
  have h := fireTicks_success envs (startTyping s now)
    (by rw [hs]) (by rw [hs]) hg
  have hz : (startTyping s now).stats.charactersTyped = 0 := by rw [hs]
  have hr : (startTyping s now).isRunning = true := by rw [hs]
  have h1 : (fireTicks (startTyping s now) envs).stats.charactersTyped
      = envs.length := by
    rw [h.1, hz]
    omega
  have h2 : (fireTicks (startTyping s now) envs).isRunning = true :=
    h.2.trans hr
  exact ⟨h1, h2, by simp [getStatus, h1], by simp [getStatus, h2]⟩

/-- Witness for C5: three successful ticks after a start leave the
count at 3 and the session running. -/
theorem ticks_count_witness :
    (fireTicks (startTyping AutoTypewriter.initial 0)
        [⟨some "f", true, 1000⟩, ⟨some "f", true, 2000⟩,
         ⟨some "f", true, 3000⟩]).stats.charactersTyped
      = ([⟨some "f", true, 1000⟩, ⟨some "f", true, 2000⟩,
          ⟨some "f", true, 3000⟩] : List HostEnv).length ∧
    (fireTicks (startTyping AutoTypewriter.initial 0)
        [⟨some "f", true, 1000⟩, ⟨some "f", true, 2000⟩,
         ⟨some "f", true, 3000⟩]).isRunning = true ∧
    (getStatus (fireTicks (startTyping AutoTypewriter.initial 0)
        [⟨some "f", true, 1000⟩, ⟨some "f", true, 2000⟩,
         ⟨some "f", true, 3000⟩]) 3000).charactersTyped
      = ([⟨some "f", true, 1000⟩, ⟨some "f", true, 2000⟩,
          ⟨some "f", true, 3000⟩] : List HostEnv).length ∧
    (getStatus (fireTicks (startTyping AutoTypewriter.initial 0)
        [⟨some "f", true, 1000⟩, ⟨some "f", true, 2000⟩,
         ⟨some "f", true, 3000⟩]) 3000).isRunning = true :=
  ticks_count AutoTypewriter.initial 0 3000
    [⟨some "f", true, 1000⟩, ⟨some "f", true, 2000⟩, ⟨some "f", true, 3000⟩]
    rfl
    (by
      intro e he
      simp only [List.mem_cons, List.not_mem_nil, or_false] at he
      rcases he with h | h | h <;> subst h <;>
        exact ⟨⟨"f", rfl, by decide⟩, rfl⟩)

/-- C6: a tick finding no target character — the read throws (`none`)
or yields the empty string — changes nothing: no state change, no
dispatched event, and, the step functions being total, no error
reaches the caller; the session keeps running. -/
theorem missing_char_noop (s : AutoTypewriter) (env : HostEnv)
    (h : env.targetChar = none ∨ env.targetChar = some "") :
    typeNextCharacter s env = (s, none) ∧ fireTick s env = (s, none) := by
  have ht : typeNextCharacter s env = (s, none) := by
    rcases h with h | h <;> simp [typeNextCharacter, h]
  refine ⟨ht, ?_⟩
  unfold fireTick tickCallback
  split
  · split
    · rfl
    · exact ht
  · rfl

/-- Witness for C6 with an empty target character. -/
theorem missing_char_noop_witness :
    typeNextCharacter AutoTypewriter.initial ⟨some "", true, 0⟩
        = (AutoTypewriter.initial, none) ∧
    fireTick AutoTypewriter.initial ⟨some "", true, 0⟩
        = (AutoTypewriter.initial, none) :=
  missing_char_noop AutoTypewriter.initial ⟨some "", true, 0⟩ (Or.inr rfl)

/-- C7: `togglePause` is a no-op when the controller is not running;
while running it flips `isPaused` on each call (a double toggle
restores the state, so Running and Paused alternate indefinitely) and
never changes `charactersTyped`; a tick firing while paused changes
nothing. -/
theorem togglePause_spec (s : AutoTypewriter) (env : HostEnv) :
    (s.isRunning = false → togglePause s = s) ∧
    (s.isRunning = true →
      (togglePause s).isPaused = !s.isPaused ∧
      (togglePause s).isRunning = true ∧
      togglePause (togglePause s) = s) ∧
    (togglePause s).stats.charactersTyped = s.stats.charactersTyped ∧
    (s.isPaused = true → fireTick s env = (s, none)) := by
  refine ⟨?_, ?_, ?_, ?_⟩
  · intro h
    simp [togglePause, h]
  · intro h
    have h1 : togglePause s = { s with isPaused := !s.isPaused } := by
      unfold togglePause
      rw [if_pos h]
    refine ⟨by rw [h1], by rw [h1]; exact h, ?_⟩
    rw [h1]
    unfold togglePause
    rw [if_pos
      (show ({ s with isPaused := !s.isPaused } :
        AutoTypewriter).isRunning = true from h)]
    rw [Bool.not_not]
  · unfold togglePause
    split <;> rfl
  · intro h
    simp [fireTick, tickCallback, h]

/-- The state after `start` at time 0 followed by one `togglePause`:
running and paused. -/
def samplePaused : AutoTypewriter :=
  togglePause (startTyping AutoTypewriter.initial 0)

/-- Witness for C7 at a running-and-paused state. -/
theorem togglePause_spec_witness :
    (samplePaused.isRunning = false →
      togglePause samplePaused = samplePaused) ∧
    (samplePaused.isRunning = true →
      (togglePause samplePaused).isPaused = !samplePaused.isPaused ∧
      (togglePause samplePaused).isRunning = true ∧
      togglePause (togglePause samplePaused) = samplePaused) ∧
    (togglePause samplePaused).stats.charactersTyped
        = samplePaused.stats.charactersTyped ∧
    (samplePaused.isPaused = true →
      fireTick samplePaused ⟨some "f", true, 500⟩ = (samplePaused, none)) :=
  togglePause_spec samplePaused ⟨some "f", true, 500⟩

/-- C8: every keystroke event a tick dispatches (which happens only
against a present focused element) carries the target character as its
`key`, a `keyCode` of 32 when the character is a space and otherwise
the first character's code, all four modifier flags false, and is
bubbling and cancelable. -/
theorem dispatched_event_shape (s s' : AutoTypewriter) (env : HostEnv)
    (ev : KeyboardEvent) (c : String)
    (hc : env.targetChar = some c)
    (h : fireTick s env = (s', some ev)) :
    ev.key = c ∧
    (if c = " " then ev.keyCode = 32
      else ev.keyCode = (c.get 0).toNat) ∧
    ev.altKey = false ∧ ev.ctrlKey = false ∧ ev.shiftKey = false ∧
    ev.metaKey = false ∧ ev.bubbles = true ∧ ev.cancelable = true ∧
    env.activeElementPresent = true := by
  by_cases ha : s.intervalActive = true
  · by_cases hp : s.isPaused = true
    · have hnone : fireTick s env = (s, none) := by
        simp [fireTick, tickCallback, hp]
      rw [hnone] at h
      simp [Prod.ext_iff] at h
    · by_cases hcne : c = ""
      · have hnone : fireTick s env = (s, none) := by
          simp [fireTick, tickCallback, typeNextCharacter, hc, hcne]
        rw [hnone] at h
        simp [Prod.ext_iff] at h
      · by_cases hf : env.activeElementPresent = true
        · have hstep := fireTick_success s env c ha
            (by simpa using hp) hc hcne hf
          rw [hstep] at h
          have hev : ev = mkKeypressEvent c := by
            have h2 := congrArg Prod.snd h
            simp only [Option.some.injEq] at h2
            exact h2.symm
          subst hev
          refine ⟨rfl, ?_, rfl, rfl, rfl, rfl, rfl, rfl, hf⟩
          by_cases hsp : c = " " <;> simp [mkKeypressEvent, hsp]
        · have hnone : fireTick s env = (s, none) := by
            simp [fireTick, tickCallback, typeNextCharacter, hc, hcne, hf]
          rw [hnone] at h
          simp [Prod.ext_iff] at h
  · have hnone : fireTick s env = (s, none) :=
      fireTick_not_active s env (by simpa using ha)
    rw [hnone] at h
    simp [Prod.ext_iff] at h

/-- Witness for C8: a tick typing a space against a focused element
dispatches the event with key " " and keyCode 32. -/
theorem dispatched_event_shape_witness :
    (mkKeypressEvent " ").key = " " ∧
    (if (" " : String) = " " then (mkKeypressEvent " ").keyCode = 32
      else (mkKeypressEvent " ").keyCode = ((" " : String).get 0).toNat) ∧
    (mkKeypressEvent " ").altKey = false ∧
    (mkKeypressEvent " ").ctrlKey = false ∧
    (mkKeypressEvent " ").shiftKey = false ∧
    (mkKeypressEvent " ").metaKey = false ∧
    (mkKeypressEvent " ").bubbles = true ∧
    (mkKeypressEvent " ").cancelable = true ∧
    (⟨some " ", true, 5⟩ : HostEnv).activeElementPresent = true :=
  dispatched_event_shape (startTyping AutoTypewriter.initial 0)
    (fireTick (startTyping AutoTypewriter.initial 0) ⟨some " ", true, 5⟩).1
    ⟨some " ", true, 5⟩ (mkKeypressEvent " ") " " rfl rfl

/-- C9: `stop` retains `charactersTyped` and `startTime`; afterwards
the status snapshot still shows the final count, reports not running,
and its elapsed-time field keeps growing with the clock. -/
theorem stop_preserves_stats (s : AutoTypewriter) (t now1 now2 : Nat)
    (ht : s.stats.startTime = some t) (h1 : t ≤ now1) (h2 : now1 < now2) :
    (stop s).stats.charactersTyped = s.stats.charactersTyped ∧
    (stop s).stats.startTime = s.stats.startTime ∧
    (getStatus (stop s) now1).charactersTyped
        = s.stats.charactersTyped ∧
    (getStatus (stop s) now1).isRunning = false ∧
    (getStatus (stop s) now1).timeRunning
        < (getStatus (stop s) now2).timeRunning := by
  refine ⟨rfl, rfl, rfl, rfl, ?_⟩
  have hst : (stop s).stats.startTime = some t := ht
  simp only [getStatus, hst]
  omega

/-- Witness for C9: stopping a session started at time 10 and reading
status at times 50 and 60. -/
theorem stop_preserves_stats_witness :
    (stop (startTyping AutoTypewriter.initial 10)).stats.charactersTyped
        = (startTyping AutoTypewriter.initial 10).stats.charactersTyped ∧
    (stop (startTyping AutoTypewriter.initial 10)).stats.startTime
        = (startTyping AutoTypewriter.initial 10).stats.startTime ∧
    (getStatus (stop (startTyping AutoTypewriter.initial 10))
        50).charactersTyped
        = (startTyping AutoTypewriter.initial 10).stats.charactersTyped ∧
    (getStatus (stop (startTyping AutoTypewriter.initial 10))
        50).isRunning = false ∧
    (getStatus (stop (startTyping AutoTypewriter.initial 10))
        50).timeRunning
        < (getStatus (stop (startTyping AutoTypewriter.initial 10))
        60).timeRunning :=
  stop_preserves_stats (startTyping AutoTypewriter.initial 10) 10 50 60
    rfl (by decide) (by decide)

/-- C10: a tick that reads a non-empty target character but finds no
focused element dispatches nothing and leaves the state — in
particular `charactersTyped` and `lastTypedTime` — untouched; no
error is raised and the session keeps running. -/
theorem no_focus_noop (s : AutoTypewriter) (env : HostEnv) (c : String)
    (hc : env.targetChar = some c) (hne : c ≠ "")
    (hf : env.activeElementPresent = false) :
    typeNextCharacter s env = (s, none) ∧ fireTick s env = (s, none) := by
  have ht : typeNextCharacter s env = (s, none) := by
    simp [typeNextCharacter, hc, hne, hf]
  refine ⟨ht, ?_⟩
  unfold fireTick tickCallback
  split
  · split
    · rfl
    · exact ht
  · rfl

/-- Witness for C10 with target character "a" and no focused element. -/
theorem no_focus_noop_witness :
    typeNextCharacter AutoTypewriter.initial ⟨some "a", false, 0⟩
        = (AutoTypewriter.initial, none) ∧
    fireTick AutoTypewriter.initial ⟨some "a", false, 0⟩
        = (AutoTypewriter.initial, none) :=
  no_focus_noop AutoTypewriter.initial ⟨some "a", false, 0⟩ "a"
    rfl (by decide) rfl
